import Mathlib

/-!
# Procedural cube-face mesh generator (`Source/Game/MeshGenerator.cpp`)

A shallow embedding of `MeshGenerator::GenerateVertexesForFace`,
`MeshGenerator::CreateModel`, `Mesh::GetAllIndexData` and
`Mesh::GetAllVertexData`, followed by theorems about them.

Conventions of the embedding.

* `float` values are rationals. Every literal of the source (`0.5f`, `-0.5f`,
  `0.0f`) is a dyadic number, and every subtraction, product and sum the face
  builder performs on them has a result in `{0, ±1/2, ±1}` or is a small
  integer, all of which binary32 represents exactly; rational arithmetic
  therefore agrees with the floating-point arithmetic of the source on every
  value computed here.
* `std::vector<T>` is `List T`; `push_back` appends at the end.
* `uint16_t` values are naturals reduced `% 65536` at each conversion.
* Code that can throw (`std::vector::at`) or read out of bounds returns
  `Option`; `none` stands for the exception / undefined read.
* The engine (Urho3D) is not part of the sources. Its vector arithmetic is
  modelled below; the calls `CreateModel` makes on engine objects are recorded,
  in source order, as a list of `EngineCall`.
-/

namespace GamePrototyping

/-! ## Engine vector types -/

/-- Modelled from the spec: the engine's two-component float vector
(`Vector2(x, y)`), used by the source for the corners of the 2D unit quad. -/
structure Vector2 where
  x_ : ℚ
  y_ : ℚ
deriving DecidableEq

/-- Modelled from the spec: the engine's three-component float vector, laid out
as three consecutive floats `x_, y_, z_` (the source reinterprets three
consecutive floats of the vertex stream as one `Vector3`). -/
structure Vector3 where
  x_ : ℚ
  y_ : ℚ
  z_ : ℚ
deriving DecidableEq

/-- Modelled from the spec: `Vector3::operator-`, the componentwise difference
(the "edge vector" between two vertices). -/
def Vector3.sub (a b : Vector3) : Vector3 :=
  ⟨a.x_ - b.x_, a.y_ - b.y_, a.z_ - b.z_⟩

/-- Modelled from the spec: `Vector3::operator*(float)`, componentwise scaling. -/
def Vector3.scale (a : Vector3) (s : ℚ) : Vector3 :=
  ⟨a.x_ * s, a.y_ * s, a.z_ * s⟩

/-- Modelled from the spec: `Vector3::CrossProduct`, the cross product
`this × rhs`. -/
def Vector3.CrossProduct (a rhs : Vector3) : Vector3 :=
  ⟨a.y_ * rhs.z_ - a.z_ * rhs.y_,
   a.z_ * rhs.x_ - a.x_ * rhs.z_,
   a.x_ * rhs.y_ - a.y_ * rhs.x_⟩

/-- Modelled from the spec: `Vector3::DotProduct`. -/
def Vector3.DotProduct (a rhs : Vector3) : ℚ :=
  a.x_ * rhs.x_ + a.y_ * rhs.y_ + a.z_ * rhs.z_

/-- Modelled from the spec: `Vector3::LengthSquared`, the squared Euclidean
length. -/
def Vector3.LengthSquared (a : Vector3) : ℚ :=
  a.x_ * a.x_ + a.y_ * a.y_ + a.z_ * a.z_

/-- Modelled from the spec: the tolerance of the engine's float comparison
(`M_EPSILON = 0.000001f`). Its exact value plays no role below: the only
comparison ever evaluated is `Equals 1 1`, true for every non-negative
tolerance. -/
def M_EPSILON : ℚ := 1 / 1000000

/-- Modelled from the spec: the engine's tolerant float equality
`lhs + eps >= rhs && lhs - eps <= rhs`. -/
def Equals (lhs rhs : ℚ) : Bool :=
  decide (lhs + M_EPSILON ≥ rhs) && decide (lhs - M_EPSILON ≤ rhs)

/-- Modelled from the spec: `Vector3::Normalized` ("normalize"). The engine
returns the vector unchanged when its squared length already equals one (or is
not positive) and otherwise scales it by `1 / sqrtf(lengthSquared)`. The square
root is the parameter `sqrtf`, so nothing is assumed about its values. -/
def Vector3.Normalized (sqrtf : ℚ → ℚ) (a : Vector3) : Vector3 :=
  let lenSquared := a.LengthSquared
  if !(Equals lenSquared 1) && decide (lenSquared > 0) then
    let invLen := 1 / sqrtf lenSquared
    a.scale invLen
  else
    a

/-! ## `MeshGenerator.h` -/

/-- The enumerators of `enum MeshDirection : char`, as the integer each one
promotes to. -/
def MESH_DIR_None : Int := 0b00000000

/-- Enumerator `MESH_DIR_NegativeZ = 0b00000001`. -/
def MESH_DIR_NegativeZ : Int := 0b00000001

/-- Enumerator `MESH_DIR_NegativeY = 0b00000010`. -/
def MESH_DIR_NegativeY : Int := 0b00000010

/-- Enumerator `MESH_DIR_PositiveX = 0b00000100`. -/
def MESH_DIR_PositiveX : Int := 0b00000100

/-- Enumerator `MESH_DIR_PositiveZ = 0b00001000`. -/
def MESH_DIR_PositiveZ : Int := 0b00001000

/-- Enumerator `MESH_DIR_PositiveY = 0b00010000`. -/
def MESH_DIR_PositiveY : Int := 0b00010000

/-- Enumerator `MESH_DIR_NegativeX = 0b00100000`. -/
def MESH_DIR_NegativeX : Int := 0b00100000

/-- The source's `struct Face`: `std::vector<float> vertexData`,
`std::vector<uint16_t> indexData`, `uint16_t count`. -/
structure Face where
  vertexData : List ℚ
  indexData : List Nat
  count : Nat
deriving DecidableEq

/-- The source's `class Mesh`: its only member is `std::vector<Face> faces_`. -/
structure Mesh where
  faces_ : List Face
deriving DecidableEq

/-! ## `MeshGenerator.cpp`: tables -/

/-- Constant `const unsigned numSingularIndex = 6`. -/
def numSingularIndex : Nat := 6

/-- Table `singluarVertex[]`: the four corners of the 2D unit quad. -/
def singluarVertex : List Vector2 :=
  [⟨-1/2, -1/2⟩, ⟨1/2, -1/2⟩, ⟨-1/2, 1/2⟩, ⟨1/2, 1/2⟩]

/-- Table `singularIndex[]`. -/
def singularIndex : List Nat := [2, 0, 1, 2, 1, 3]

/-- Table `singularIndex_inv[]`. -/
def singularIndex_inv : List Nat := [0, 2, 1, 1, 2, 3]

/-! ## `MeshGenerator::GenerateVertexesForFace` -/

/-- The local state of the first loop of `GenerateVertexesForFace`. -/
structure FaceBuild where
  vertexData : List ℚ
  indexData : List Nat
  indexPosCounter : Nat

/-- One iteration of the first loop (source lines 44-72) for the loop variable
`indexPos`. Reading a table outside its bounds is `none`. -/
def MeshGenerator.GenerateVertexesForFace.emitVertex (dir : Nat) (s : FaceBuild)
    (indexPos : Nat) : Option FaceBuild := do
  let k ← (if dir < 3 then singularIndex else singularIndex_inv)[indexPos]?
  let point ← singluarVertex[k]?
  let vertexData :=
    if dir = 0 ∨ dir = 3 then
      s.vertexData ++ [point.x_] ++ [point.y_] ++ [if dir < 3 then 1/2 else -1/2]
    else if dir = 1 ∨ dir = 4 then
      s.vertexData ++ [point.x_] ++ [if dir < 3 then -1/2 else 1/2] ++ [point.y_]
    else
      s.vertexData ++ [if dir < 3 then 1/2 else -1/2] ++ [point.x_] ++ [point.y_]
  -- the placeholder normal
  let vertexData := vertexData ++ [0] ++ [0] ++ [0]
  let indexData := s.indexData ++ [s.indexPosCounter % 65536]
  pure ⟨vertexData, indexData, s.indexPosCounter + 1⟩

/-- Read of `*(reinterpret_cast<Vector3*>(&vertexData.at(k)))`: `at(k)` throws
when `k` is out of range and the reinterpreted read also touches the floats at
`k + 1` and `k + 2`; any of the three missing is `none`. -/
def readVector3 (vertexData : List ℚ) (k : Nat) : Option Vector3 := do
  let x ← vertexData[k]?
  let y ← vertexData[k + 1]?
  let z ← vertexData[k + 2]?
  pure ⟨x, y, z⟩

/-- Write through a `Vector3&` obtained from
`reinterpret_cast<Vector3*>(&vertexData.at(k))`: stores the three components at
`k`, `k + 1`, `k + 2` (the reference was bounds-checked when it was taken). -/
def writeVector3 (vertexData : List ℚ) (k : Nat) (v : Vector3) : List ℚ :=
  ((vertexData.set k v.x_).set (k + 1) v.y_).set (k + 2) v.z_

/-- One iteration of the second loop (source lines 74-86) for the loop variable
`i`: the six references are taken first (each may throw), then the normal is
computed from `edge1 = v1 - v2`, `edge2 = v1 - v3` and assigned right to left
by `n1 = n2 = n3 = ...`. -/
def MeshGenerator.GenerateVertexesForFace.setNormals (sqrtf : ℚ → ℚ)
    (vertexData : List ℚ) (i : Nat) : Option (List ℚ) := do
  let v1 ← readVector3 vertexData (6 * i)
  let v2 ← readVector3 vertexData (6 * (i + 1))
  let v3 ← readVector3 vertexData (6 * (i + 2))
  let _ ← readVector3 vertexData (6 * i + 3)
  let _ ← readVector3 vertexData (6 * (i + 1) + 3)
  let _ ← readVector3 vertexData (6 * (i + 2) + 3)
  let edge1 := v1.sub v2
  let edge2 := v1.sub v3
  let n := (edge1.CrossProduct edge2).Normalized sqrtf
  let vertexData := writeVector3 vertexData (6 * (i + 2) + 3) n
  let vertexData := writeVector3 vertexData (6 * (i + 1) + 3) n
  let vertexData := writeVector3 vertexData (6 * i + 3) n
  pure vertexData

/-- The source's `Face MeshGenerator::GenerateVertexesForFace(uint16_t& dir)`.
The first loop runs `indexPos` over `0 .. numSingularIndex - 1`; the second runs
`i` over `0, 3, 6, ...` while `i < indexData.size()`, that is over the
`⌈size / 3⌉` multiples of three below the size. The `count` field receives
`indexData.size()` converted to `uint16_t`. -/
def MeshGenerator.GenerateVertexesForFace (sqrtf : ℚ → ℚ) (dir : Nat) : Option Face := do
  let s ← (List.range numSingularIndex).foldlM
    (MeshGenerator.GenerateVertexesForFace.emitVertex dir) ⟨[], [], 0⟩
  let vertexData ← (List.range' 0 ((s.indexData.length + 2) / 3) 3).foldlM
    (MeshGenerator.GenerateVertexesForFace.setNormals sqrtf) s.vertexData
  pure ⟨vertexData, s.indexData, s.indexData.length % 65536⟩

/-! ## `Mesh::GetAllIndexData` and `Mesh::GetAllVertexData` -/

/-- The local state of `GetAllIndexData`: the vector being built and the `int`
counter. -/
structure IndexBuild where
  indexData : List Nat
  indexCounter : Nat

/-- The source's `std::vector<uint16_t> Mesh::GetAllIndexData()`. For every face
the inner loop runs `i` over `0 .. face.vertexData.size() - 1` and pushes the
counter, converted to `uint16_t`, each time. (The counter is an `int`; reducing
it modulo `2^32` first would not change its value modulo `65536`.) -/
def Mesh.GetAllIndexData (self : Mesh) : List Nat :=
  (self.faces_.foldl
    (fun (s : IndexBuild) (face : Face) =>
      (List.range face.vertexData.length).foldl
        (fun (s : IndexBuild) (_ : Nat) =>
          ⟨s.indexData ++ [s.indexCounter % 65536], s.indexCounter + 1⟩)
        s)
    ⟨[], 0⟩).indexData

/-- The source's `std::vector<float> Mesh::GetAllVertexData()`: each face's
`vertexData` is inserted at the end of the vector being built. -/
def Mesh.GetAllVertexData (self : Mesh) : List ℚ :=
  self.faces_.foldl (fun (vertexData : List ℚ) (face : Face) => vertexData ++ face.vertexData) []

/-! ## `MeshGenerator::CreateModel` -/

/-- Modelled from the spec: the engine's vertex element types used by the
source (`TYPE_VECTOR3`). -/
inductive VertexElementType where
  | TYPE_VECTOR3
deriving DecidableEq

/-- Modelled from the spec: the engine's vertex element semantics used by the
source (`SEM_POSITION`, `SEM_NORMAL`). -/
inductive VertexElementSemantic where
  | SEM_POSITION
  | SEM_NORMAL
deriving DecidableEq

/-- Modelled from the spec: the engine's `VertexElement(type, semantic)`. -/
structure VertexElement where
  type_ : VertexElementType
  semantic_ : VertexElementSemantic
deriving DecidableEq

/-- Modelled from the spec: the engine's primitive type used by the source
(`TRIANGLE_LIST`). -/
inductive PrimitiveType where
  | TRIANGLE_LIST
deriving DecidableEq

/-- The calls `CreateModel` makes on the engine objects `vb` (vertex buffer),
`ib` (index buffer), `geom` (geometry) and `fromScratchModel` (model), each with
the arguments the source passes. -/
inductive EngineCall where
  | vb_SetShadowed (enable : Bool)
  | vb_SetSize (vertexCount : Nat) (elements : List VertexElement)
  | vb_SetData (data : List ℚ)
  | ib_SetShadowed (enable : Bool)
  | ib_SetSize (indexCount : Nat) (largeIndices : Bool)
  | ib_SetData (data : List Nat)
  | geom_SetVertexBuffer (index : Nat)
  | geom_SetIndexBuffer
  | geom_SetDrawRange (type : PrimitiveType) (indexStart : Nat) (indexCount : Nat)
  | model_SetNumGeometries (num : Nat)
  | model_SetGeometry (index : Nat) (lodLevel : Nat)
  | model_SetBoundingBox (min : Vector3) (max : Vector3)
  | model_SetVertexBuffers (morphRangeStarts : List Nat) (morphRangeCounts : List Nat)
  | model_SetIndexBuffers
deriving DecidableEq

/-- What one run of `CreateModel` computes: its locals `faces`, `vertexData`,
`indexData`, `numOfVerticies`, and the engine calls it makes, in source order. -/
structure CreateModelRun where
  faces : List Face
  vertexData : List ℚ
  indexData : List Nat
  numOfVerticies : Nat
  calls : List EngineCall
deriving DecidableEq

/-- One iteration of the loop of `CreateModel` (source lines 98-105) for the
loop variable `directionPosition`. `meshDirection` is `1 << directionPosition`
(at most 32, so the conversion to the `char`-backed enum keeps it); `directions`
is the integer the argument promotes to in `meshDirection & directions`. -/
def MeshGenerator.CreateModel.selectFace (sqrtf : ℚ → ℚ) (directions : Int)
    (faces : List Face) (directionPosition : Nat) : Option (List Face) :=
  let meshDirection : Int := ((1 <<< directionPosition : Nat) : Int)
  if (Int.land meshDirection directions) >>> directionPosition = 1 then do
    let face ← MeshGenerator.GenerateVertexesForFace sqrtf directionPosition
    pure (faces ++ [face])
  else
    pure faces

/-- The source's `SharedPtr<Model> MeshGenerator::CreateModel(MeshDirection
directions)`. The loop runs `directionPosition` over `0 .. 5`. `numOfVerticies`
is `indexData.size() / 6`. None of the engine calls is conditional. -/
def MeshGenerator.CreateModel (sqrtf : ℚ → ℚ) (directions : Int) : Option CreateModelRun := do
  let faces ← (List.range 6).foldlM (MeshGenerator.CreateModel.selectFace sqrtf directions) []
  let mesh : Mesh := ⟨faces⟩
  let vertexData := mesh.GetAllVertexData
  let indexData := mesh.GetAllIndexData
  let numOfVerticies := indexData.length / 6
  let elements : List VertexElement :=
    [⟨.TYPE_VECTOR3, .SEM_POSITION⟩] ++ [⟨.TYPE_VECTOR3, .SEM_NORMAL⟩]
  let morphRangeStarts : List Nat := [0]
  let morphRangeCounts : List Nat := [0]
  pure ⟨faces, vertexData, indexData, numOfVerticies,
    [ .vb_SetShadowed true,
      .vb_SetSize numOfVerticies elements,
      .vb_SetData vertexData,
      .ib_SetShadowed true,
      .ib_SetSize numOfVerticies false,
      .ib_SetData indexData,
      .geom_SetVertexBuffer 0,
      .geom_SetIndexBuffer,
      .geom_SetDrawRange .TRIANGLE_LIST 0 numOfVerticies,
      .model_SetNumGeometries 1,
      .model_SetGeometry 0 0,
      .model_SetBoundingBox ⟨-1/2, -1/2, -1/2⟩ ⟨1/2, 1/2, 1/2⟩,
      .model_SetVertexBuffers morphRangeStarts morphRangeCounts,
      .model_SetIndexBuffers ]⟩

/-- Modelled from the spec: what `IndexBuffer::SetData` stores in a buffer that
`SetSize` sized to `indexCount` indices: the first `indexCount` entries of the
data it is handed ("an index buffer sized to vertex count ... populate with the
index stream"). -/
def IndexBuffer.SetData (indexCount : Nat) (data : List Nat) : List Nat :=
  data.take indexCount

/-- Modelled from the spec: what `VertexBuffer::SetData` stores in a buffer that
`SetSize` sized to `vertexCount` records of six floats (position and normal):
the first `6 * vertexCount` floats of the data it is handed. -/
def VertexBuffer.SetData (vertexCount : Nat) (data : List ℚ) : List ℚ :=
  data.take (6 * vertexCount)

/-! ## Vocabulary of the statements -/

/-- The number of set bits of a natural number: the sum of its binary digits. -/
def popcount (d : Nat) : Nat := (Nat.digits 2 d).sum

/-- The position of vertex record `k` of a vertex stream: its floats
`6k, 6k+1, 6k+2`. -/
def vertexPosition (vertexData : List ℚ) (k : Nat) : Option Vector3 :=
  readVector3 vertexData (6 * k)

/-- The normal of vertex record `k` of a vertex stream: its floats
`6k+3, 6k+4, 6k+5`. -/
def vertexNormal (vertexData : List ℚ) (k : Nat) : Option Vector3 :=
  readVector3 vertexData (6 * k + 3)

/-- The centroid of triangle `t` of a vertex stream, the mean of the positions
of its vertex records `3t, 3t+1, 3t+2`. -/
def triangleCentroid (vertexData : List ℚ) (t : Nat) : Option Vector3 := do
  let a ← vertexPosition vertexData (3 * t)
  let b ← vertexPosition vertexData (3 * t + 1)
  let c ← vertexPosition vertexData (3 * t + 2)
  pure ⟨(a.x_ + b.x_ + c.x_) / 3, (a.y_ + b.y_ + c.y_) / 3, (a.z_ + b.z_ + c.z_) / 3⟩

/-- The position claim C7 assigns to vertex `k` of the face for direction index
`dir`, written from the claim's words: `p = quad[table[k]]` with the quad and
the two tables spelled out, placed in the plane of the face. -/
def specVertexPosition (dir k : Nat) : Option Vector3 := do
  let quad : List (ℚ × ℚ) := [(-1/2, -1/2), (1/2, -1/2), (-1/2, 1/2), (1/2, 1/2)]
  let table : List Nat := if dir < 3 then [2, 0, 1, 2, 1, 3] else [0, 2, 1, 1, 2, 3]
  let p ← quad[← table[k]?]?
  if dir = 0 then some ⟨p.1, p.2, 1/2⟩
  else if dir = 3 then some ⟨p.1, p.2, -1/2⟩
  else if dir = 1 then some ⟨p.1, -1/2, p.2⟩
  else if dir = 4 then some ⟨p.1, 1/2, p.2⟩
  else if dir = 2 then some ⟨1/2, p.1, p.2⟩
  else if dir = 5 then some ⟨-1/2, p.1, p.2⟩
  else none

/-- The positions of the first `n` vertex records of a vertex stream, in order
(a record that cannot be read is left out). -/
def vertexPositions (vertexData : List ℚ) (n : Nat) : List Vector3 :=
  (List.range n).filterMap (vertexPosition vertexData)

/-- The componentwise minimum of a non-empty list of points. -/
def componentwiseMin : List Vector3 → Option Vector3
  | [] => none
  | p :: ps => some (ps.foldl (fun m q => ⟨min m.x_ q.x_, min m.y_ q.y_, min m.z_ q.z_⟩) p)

/-- The componentwise maximum of a non-empty list of points. -/
def componentwiseMax : List Vector3 → Option Vector3
  | [] => none
  | p :: ps => some (ps.foldl (fun m q => ⟨max m.x_ q.x_, max m.y_ q.y_, max m.z_ q.z_⟩) p)

/-- The normal the specification assigns to a triangle with vertex positions
`p0, p1, p2`, written from its words: the edge vectors run from vertex 0 to
vertex 1 and from vertex 0 to vertex 2, their cross product is normalized. -/
def specTriangleNormal (sqrtf : ℚ → ℚ) (p0 p1 p2 : Vector3) : Vector3 :=
  ((p1.sub p0).CrossProduct (p2.sub p0)).Normalized sqrtf

/-- The six sides of the unit cube `[-0.5, 0.5]^3`, each as the list of its four
corners: for each axis and each sign, the corners whose coordinate on that axis
has that sign. -/
def cubeSides : List (List Vector3) :=
  [ [⟨-1/2, -1/2, -1/2⟩, ⟨-1/2, -1/2, 1/2⟩, ⟨-1/2, 1/2, -1/2⟩, ⟨-1/2, 1/2, 1/2⟩],
    [⟨1/2, -1/2, -1/2⟩, ⟨1/2, -1/2, 1/2⟩, ⟨1/2, 1/2, -1/2⟩, ⟨1/2, 1/2, 1/2⟩],
    [⟨-1/2, -1/2, -1/2⟩, ⟨-1/2, -1/2, 1/2⟩, ⟨1/2, -1/2, -1/2⟩, ⟨1/2, -1/2, 1/2⟩],
    [⟨-1/2, 1/2, -1/2⟩, ⟨-1/2, 1/2, 1/2⟩, ⟨1/2, 1/2, -1/2⟩, ⟨1/2, 1/2, 1/2⟩],
    [⟨-1/2, -1/2, -1/2⟩, ⟨-1/2, 1/2, -1/2⟩, ⟨1/2, -1/2, -1/2⟩, ⟨1/2, 1/2, -1/2⟩],
    [⟨-1/2, -1/2, 1/2⟩, ⟨-1/2, 1/2, 1/2⟩, ⟨1/2, -1/2, 1/2⟩, ⟨1/2, 1/2, 1/2⟩] ]

/-- The number of coordinates in which two points differ. -/
def differingCoordinates (p q : Vector3) : Nat :=
  (if p.x_ = q.x_ then 0 else 1) + (if p.y_ = q.y_ then 0 else 1) +
    (if p.z_ = q.z_ then 0 else 1)

/-- The distinct positions of `a` that also occur in `b`. -/
def positionsShared (a b : List Vector3) : List Vector3 :=
  (a.filter (fun p => decide (p ∈ b))).dedup

/-- The positions of `a` that do not occur in `b`. -/
def positionsOnlyIn (a b : List Vector3) : List Vector3 :=
  a.filter (fun p => decide (p ∉ b))

/-! ## Proof devices: independence from the square root

`Vector3.Normalized` calls `sqrtf` only when the squared length differs from
one. The checks below are evaluated on closed terms; the lemmas after them
transfer every evaluation made with `Rat.sqrt` to an arbitrary `sqrtf`. -/

/-- Whether the cross product that `setNormals` normalizes for triangle `i`
has squared length one (vacuously true when a vertex cannot be read). -/
def unitCrossAt (vertexData : List ℚ) (i : Nat) : Bool :=
  match readVector3 vertexData (6 * i), readVector3 vertexData (6 * (i + 1)),
      readVector3 vertexData (6 * (i + 2)) with
  | some v1, some v2, some v3 =>
    decide (((v1.sub v2).CrossProduct (v1.sub v3)).LengthSquared = 1)
  | _, _, _ => true

/-- Whether `unitCrossAt` holds at every step of the second loop run over the
values `is` of `i`, starting from `vertexData`. -/
def unitCrossAlong (vertexData : List ℚ) : List Nat → Bool
  | [] => true
  | i :: is =>
    unitCrossAt vertexData i &&
      (match MeshGenerator.GenerateVertexesForFace.setNormals Rat.sqrt vertexData i with
       | some vertexData' => unitCrossAlong vertexData' is
       | none => true)

/-- Whether `unitCrossAlong` holds for the second loop of
`GenerateVertexesForFace dir`. -/
def unitCrossFace (dir : Nat) : Bool :=
  match (List.range numSingularIndex).foldlM
      (MeshGenerator.GenerateVertexesForFace.emitVertex dir) ⟨[], [], 0⟩ with
  | some s => unitCrossAlong s.vertexData (List.range' 0 ((s.indexData.length + 2) / 3) 3)
  | none => true

/-! ## Proof devices: the structure of `CreateModel` -/

/-- The test of the loop of `CreateModel` for the loop variable
`directionPosition`, as a Boolean. -/
def directionSelected (directions : Int) (directionPosition : Nat) : Bool :=
  decide ((Int.land ((1 <<< directionPosition : Nat) : Int) directions) >>> directionPosition = 1)

/-- Everything `CreateModel` computes once the faces are collected (source lines
106-148), as a function of the faces. -/
def CreateModelRun.ofFaces (faces : List Face) : CreateModelRun :=
  let mesh : Mesh := ⟨faces⟩
  let vertexData := mesh.GetAllVertexData
  let indexData := mesh.GetAllIndexData
  let numOfVerticies := indexData.length / 6
  ⟨faces, vertexData, indexData, numOfVerticies,
    [ .vb_SetShadowed true,
      .vb_SetSize numOfVerticies [⟨.TYPE_VECTOR3, .SEM_POSITION⟩, ⟨.TYPE_VECTOR3, .SEM_NORMAL⟩],
      .vb_SetData vertexData,
      .ib_SetShadowed true,
      .ib_SetSize numOfVerticies false,
      .ib_SetData indexData,
      .geom_SetVertexBuffer 0,
      .geom_SetIndexBuffer,
      .geom_SetDrawRange .TRIANGLE_LIST 0 numOfVerticies,
      .model_SetNumGeometries 1,
      .model_SetGeometry 0 0,
      .model_SetBoundingBox ⟨-1/2, -1/2, -1/2⟩ ⟨1/2, 1/2, 1/2⟩,
      .model_SetVertexBuffers [0] [0],
      .model_SetIndexBuffers ]⟩

/-- A vertex stream that consists of exactly `n` six-float records, the
position of each of which satisfies `P`. -/
def StreamPositions (P : Vector3 → Prop) (vertexData : List ℚ) (n : Nat) : Prop :=
  vertexData.length = 6 * n ∧
    ∀ k, k < n → ∃ p, vertexPosition vertexData k = some p ∧ P p

/-- A point all of whose coordinates are `-0.5` or `+0.5`: a corner of the unit
cube, inside the box `[-0.5,-0.5,-0.5] .. [0.5,0.5,0.5]` and on its boundary. -/
@[reducible] def IsCubeCorner (p : Vector3) : Prop :=
  (p.x_ = -1/2 ∨ p.x_ = 1/2) ∧ (p.y_ = -1/2 ∨ p.y_ = 1/2) ∧ (p.z_ = -1/2 ∨ p.z_ = 1/2) ∧
    (-1/2 ≤ p.x_ ∧ p.x_ ≤ 1/2) ∧ (-1/2 ≤ p.y_ ∧ p.y_ ≤ 1/2) ∧ (-1/2 ≤ p.z_ ∧ p.z_ ≤ 1/2)

/-! ## Lemmas -/

theorem Vector3.Normalized_of_lengthSquared_eq_one (sqrtf : ℚ → ℚ) (a : Vector3)
    (h : a.LengthSquared = 1) : a.Normalized sqrtf = a := by
  have hE : Equals 1 1 = true := by decide!
  simp [Vector3.Normalized, h, hE]

theorem setNormals_congr (sqrtf sqrtf' : ℚ → ℚ) (vertexData : List ℚ) (i : Nat)
    (h : unitCrossAt vertexData i = true) :
    MeshGenerator.GenerateVertexesForFace.setNormals sqrtf vertexData i =
      MeshGenerator.GenerateVertexesForFace.setNormals sqrtf' vertexData i := by
  unfold MeshGenerator.GenerateVertexesForFace.setNormals
  unfold unitCrossAt at h
  cases h1 : readVector3 vertexData (6 * i) with
  | none => simp only [Option.bind_eq_bind, Option.none_bind]
  | some v1 =>
    cases h2 : readVector3 vertexData (6 * (i + 1)) with
    | none => simp only [Option.bind_eq_bind, Option.some_bind, Option.none_bind]
    | some v2 =>
      cases h3 : readVector3 vertexData (6 * (i + 2)) with
      | none => simp only [Option.bind_eq_bind, Option.some_bind, Option.none_bind]
      | some v3 =>
        rw [h1, h2, h3] at h
        have hu : ((v1.sub v2).CrossProduct (v1.sub v3)).LengthSquared = 1 := by
          simpa using h
        simp only [Option.bind_eq_bind, Option.some_bind,
          Vector3.Normalized_of_lengthSquared_eq_one _ _ hu]

theorem foldlM_setNormals_congr (sqrtf : ℚ → ℚ) (is : List Nat) :
    ∀ vertexData : List ℚ, unitCrossAlong vertexData is = true →
      is.foldlM (MeshGenerator.GenerateVertexesForFace.setNormals sqrtf) vertexData =
        is.foldlM (MeshGenerator.GenerateVertexesForFace.setNormals Rat.sqrt) vertexData := by
  induction is with
  | nil => intro vertexData _; simp only [List.foldlM_nil]
  | cons i is ih =>
    intro vertexData h
    unfold unitCrossAlong at h
    rw [Bool.and_eq_true] at h
    rw [List.foldlM_cons, List.foldlM_cons, setNormals_congr sqrtf Rat.sqrt vertexData i h.1]
    cases hs : MeshGenerator.GenerateVertexesForFace.setNormals Rat.sqrt vertexData i with
    | none => simp only [Option.bind_eq_bind, Option.none_bind]
    | some vertexData' =>
      have h2 := h.2
      rw [hs] at h2
      simp only [Option.bind_eq_bind, Option.some_bind]
      exact ih vertexData' h2

theorem GenerateVertexesForFace_sqrtf_irrelevant (sqrtf : ℚ → ℚ) (dir : Nat)
    (h : unitCrossFace dir = true) :
    MeshGenerator.GenerateVertexesForFace sqrtf dir =
      MeshGenerator.GenerateVertexesForFace Rat.sqrt dir := by
  unfold MeshGenerator.GenerateVertexesForFace
  unfold unitCrossFace at h
  cases hs : (List.range numSingularIndex).foldlM
      (MeshGenerator.GenerateVertexesForFace.emitVertex dir) ⟨[], [], 0⟩ with
  | none => simp only [Option.bind_eq_bind, Option.none_bind]
  | some s =>
    rw [hs] at h
    simp only [Option.bind_eq_bind, Option.some_bind]
    rw [foldlM_setNormals_congr sqrtf _ s.vertexData h]

theorem unitCrossFace_of_lt_six : ∀ dir, dir < 6 → unitCrossFace dir = true := by
  decide!

theorem GenerateVertexesForFace_eq_of_lt_six (sqrtf : ℚ → ℚ) (dir : Nat) (h : dir < 6) :
    MeshGenerator.GenerateVertexesForFace sqrtf dir =
      MeshGenerator.GenerateVertexesForFace Rat.sqrt dir :=
  GenerateVertexesForFace_sqrtf_irrelevant sqrtf dir (unitCrossFace_of_lt_six dir h)

theorem foldlM_option_congr {α β : Type} (f g : β → α → Option β) (l : List α)
    (h : ∀ x ∈ l, ∀ b, f b x = g b x) : ∀ b, l.foldlM f b = l.foldlM g b := by
  induction l with
  | nil => intro b; simp only [List.foldlM_nil]
  | cons x xs ih =>
    intro b
    rw [List.foldlM_cons, List.foldlM_cons, h x (List.mem_cons_self x xs) b]
    cases g b x with
    | none => simp only [Option.bind_eq_bind, Option.none_bind]
    | some b' =>
      simp only [Option.bind_eq_bind, Option.some_bind]
      exact ih (fun y hy => h y (List.mem_cons_of_mem x hy)) b'

theorem CreateModel_sqrtf_irrelevant (sqrtf : ℚ → ℚ) (directions : Int) :
    MeshGenerator.CreateModel sqrtf directions =
      MeshGenerator.CreateModel Rat.sqrt directions := by
  unfold MeshGenerator.CreateModel
  rw [foldlM_option_congr (MeshGenerator.CreateModel.selectFace sqrtf directions)
    (MeshGenerator.CreateModel.selectFace Rat.sqrt directions) (List.range 6)]
  intro x hx faces
  unfold MeshGenerator.CreateModel.selectFace
  rw [GenerateVertexesForFace_eq_of_lt_six sqrtf x (List.mem_range.mp hx)]

theorem GetAllIndexData_inner_length {α : Type} (l : List α) :
    ∀ s : IndexBuild,
      (l.foldl (fun (s : IndexBuild) (_ : α) =>
          (⟨s.indexData ++ [s.indexCounter % 65536], s.indexCounter + 1⟩ : IndexBuild)) s
        ).indexData.length = s.indexData.length + l.length := by
  induction l with
  | nil => intro s; simp
  | cons x xs ih =>
    intro s
    rw [List.foldl_cons, ih]
    simp only [List.length_append, List.length_cons, List.length_nil]
    omega

theorem GetAllIndexData_outer_length (faces : List Face) :
    ∀ s : IndexBuild,
      (faces.foldl
        (fun (s : IndexBuild) (face : Face) =>
          (List.range face.vertexData.length).foldl
            (fun (s : IndexBuild) (_ : Nat) =>
              (⟨s.indexData ++ [s.indexCounter % 65536], s.indexCounter + 1⟩ : IndexBuild))
            s)
        s).indexData.length
      = s.indexData.length + (faces.map (fun face => face.vertexData.length)).sum := by
  induction faces with
  | nil => intro s; simp
  | cons f fs ih =>
    intro s
    rw [List.foldl_cons, ih, GetAllIndexData_inner_length]
    simp only [List.length_range, List.map_cons, List.sum_cons]
    omega

theorem GetAllVertexData_foldl (faces : List Face) :
    ∀ acc : List ℚ,
      faces.foldl (fun (vertexData : List ℚ) (face : Face) => vertexData ++ face.vertexData) acc
        = acc ++ (faces.map Face.vertexData).flatten := by
  induction faces with
  | nil => intro acc; simp
  | cons f fs ih =>
    intro acc
    rw [List.foldl_cons, ih]
    simp

theorem GetAllIndexData_length (faces : List Face) :
    (Mesh.GetAllIndexData ⟨faces⟩).length = (faces.map (fun face => face.vertexData.length)).sum := by
  unfold Mesh.GetAllIndexData
  rw [GetAllIndexData_outer_length]
  simp

theorem GetAllVertexData_eq_flatten (faces : List Face) :
    Mesh.GetAllVertexData ⟨faces⟩ = (faces.map Face.vertexData).flatten := by
  unfold Mesh.GetAllVertexData
  rw [GetAllVertexData_foldl]
  simp

theorem IndexBuild_step_invariant (s : IndexBuild)
    (h : s.indexData = (List.range s.indexCounter).map (fun k => k % 65536)) :
    s.indexData ++ [s.indexCounter % 65536]
      = (List.range (s.indexCounter + 1)).map (fun k => k % 65536) := by
  rw [List.range_succ, List.map_append, ← h]
  rfl

theorem GetAllIndexData_inner_invariant {α : Type} (l : List α) :
    ∀ s : IndexBuild, s.indexData = (List.range s.indexCounter).map (fun k => k % 65536) →
      (l.foldl (fun (s : IndexBuild) (_ : α) =>
          (⟨s.indexData ++ [s.indexCounter % 65536], s.indexCounter + 1⟩ : IndexBuild)) s
        ).indexData
      = (List.range (l.foldl (fun (s : IndexBuild) (_ : α) =>
          (⟨s.indexData ++ [s.indexCounter % 65536], s.indexCounter + 1⟩ : IndexBuild)) s
        ).indexCounter).map (fun k => k % 65536) := by
  induction l with
  | nil => intro s h; exact h
  | cons x xs ih =>
    intro s h
    rw [List.foldl_cons]
    exact ih _ (IndexBuild_step_invariant s h)

theorem GetAllIndexData_outer_invariant (faces : List Face) :
    ∀ s : IndexBuild, s.indexData = (List.range s.indexCounter).map (fun k => k % 65536) →
      (faces.foldl
        (fun (s : IndexBuild) (face : Face) =>
          (List.range face.vertexData.length).foldl
            (fun (s : IndexBuild) (_ : Nat) =>
              (⟨s.indexData ++ [s.indexCounter % 65536], s.indexCounter + 1⟩ : IndexBuild))
            s)
        s).indexData
      = (List.range (faces.foldl
        (fun (s : IndexBuild) (face : Face) =>
          (List.range face.vertexData.length).foldl
            (fun (s : IndexBuild) (_ : Nat) =>
              (⟨s.indexData ++ [s.indexCounter % 65536], s.indexCounter + 1⟩ : IndexBuild))
            s)
        s).indexCounter).map (fun k => k % 65536) := by
  induction faces with
  | nil => intro s h; exact h
  | cons f fs ih =>
    intro s h
    rw [List.foldl_cons]
    exact ih _ (GetAllIndexData_inner_invariant _ s h)

theorem GetAllIndexData_eq_range_mod (faces : List Face) :
    Mesh.GetAllIndexData ⟨faces⟩
      = (List.range (Mesh.GetAllIndexData ⟨faces⟩).length).map (fun k => k % 65536) := by
  have h := GetAllIndexData_outer_invariant faces ⟨[], 0⟩ rfl
  have hlen := congrArg List.length h
  rw [List.length_map, List.length_range] at hlen
  unfold Mesh.GetAllIndexData
  rw [hlen]
  exact h

theorem map_mod_range_of_le (n : Nat) (h : n ≤ 65536) :
    (List.range n).map (fun k => k % 65536) = List.range n := by
  conv_rhs => rw [← List.map_id (List.range n)]
  apply List.map_congr_left
  intro k hk
  have := List.mem_range.mp hk
  simp only [id]
  exact Nat.mod_eq_of_lt (by omega)

theorem CreateModel_eq_ofFaces (sqrtf : ℚ → ℚ) (directions : Int) :
    MeshGenerator.CreateModel sqrtf directions =
      ((List.range 6).foldlM (MeshGenerator.CreateModel.selectFace sqrtf directions) []).map
        CreateModelRun.ofFaces := by
  unfold MeshGenerator.CreateModel
  cases (List.range 6).foldlM (MeshGenerator.CreateModel.selectFace sqrtf directions) [] with
  | none => simp only [Option.bind_eq_bind, Option.none_bind, Option.map_none']
  | some faces =>
    simp only [Option.bind_eq_bind, Option.some_bind, Option.map_some']
    rfl

theorem GenerateVertexesForFace_isSome (sqrtf : ℚ → ℚ) (dir : Nat) (h : dir < 6) :
    ∃ face, MeshGenerator.GenerateVertexesForFace sqrtf dir = some face := by
  rw [GenerateVertexesForFace_eq_of_lt_six sqrtf dir h]
  have hsome : ∀ dir, dir < 6 →
      (MeshGenerator.GenerateVertexesForFace Rat.sqrt dir).isSome = true := by
    decide!
  exact Option.isSome_iff_exists.mp (hsome dir h)

theorem selectFace_eq (sqrtf : ℚ → ℚ) (directions : Int) (faces : List Face) (pos : Nat) :
    MeshGenerator.CreateModel.selectFace sqrtf directions faces pos =
      if directionSelected directions pos = true then
        (MeshGenerator.GenerateVertexesForFace sqrtf pos).map (fun face => faces ++ [face])
      else some faces := by
  unfold MeshGenerator.CreateModel.selectFace directionSelected
  by_cases hc : (Int.land ((1 <<< pos : Nat) : Int) directions) >>> pos = 1
  · simp only [hc, if_true, decide_True]
    cases MeshGenerator.GenerateVertexesForFace sqrtf pos with
    | none => simp only [Option.bind_eq_bind, Option.none_bind, Option.map_none']
    | some face => simp only [Option.bind_eq_bind, Option.some_bind, Option.map_some']; rfl
  · simp only [hc, if_false, decide_False]
    rfl

theorem foldlM_selectFace (sqrtf : ℚ → ℚ) (directions : Int) (l : List Nat)
    (hl : ∀ x ∈ l, x < 6) :
    ∀ faces0 : List Face, ∃ faces,
      l.foldlM (MeshGenerator.CreateModel.selectFace sqrtf directions) faces0 = some faces ∧
      faces.map some = faces0.map some ++
        (l.filter (directionSelected directions)).map
          (MeshGenerator.GenerateVertexesForFace sqrtf) := by
  induction l with
  | nil => intro faces0; exact ⟨faces0, by simp only [List.foldlM_nil]; rfl, by simp⟩
  | cons x xs ih =>
    intro faces0
    have hx : x < 6 := hl x (List.mem_cons_self x xs)
    have hxs : ∀ y ∈ xs, y < 6 := fun y hy => hl y (List.mem_cons_of_mem x hy)
    rw [List.foldlM_cons, selectFace_eq]
    by_cases hc : directionSelected directions x = true
    · obtain ⟨face, hface⟩ := GenerateVertexesForFace_isSome sqrtf x hx
      obtain ⟨faces, hf, hm⟩ := ih hxs (faces0 ++ [face])
      refine ⟨faces, ?_, ?_⟩
      · simp only [hc, if_true, hface, Option.map_some', Option.bind_eq_bind, Option.some_bind]
        exact hf
      · rw [hm, List.filter_cons_of_pos hc, List.map_cons, hface]
        simp
    · obtain ⟨faces, hf, hm⟩ := ih hxs faces0
      refine ⟨faces, ?_, ?_⟩
      · simp only [hc, if_false, Option.bind_eq_bind, Option.some_bind]
        exact hf
      · rw [hm, List.filter_cons_of_neg hc]

theorem CreateModel_faces (sqrtf : ℚ → ℚ) (directions : Int) :
    ∃ faces, MeshGenerator.CreateModel sqrtf directions = some (CreateModelRun.ofFaces faces) ∧
      faces.map some = ((List.range 6).filter (directionSelected directions)).map
        (MeshGenerator.GenerateVertexesForFace sqrtf) := by
  obtain ⟨faces, hf, hm⟩ := foldlM_selectFace sqrtf directions (List.range 6)
    (fun x hx => List.mem_range.mp hx) []
  refine ⟨faces, ?_, ?_⟩
  · rw [CreateModel_eq_ofFaces, hf]
    rfl
  · simpa using hm

theorem readVector3_append_left (l1 l2 : List ℚ) (idx : Nat) (h : idx + 2 < l1.length) :
    readVector3 (l1 ++ l2) idx = readVector3 l1 idx := by
  unfold readVector3
  rw [List.getElem?_append_left (by omega : idx < l1.length),
    List.getElem?_append_left (by omega : idx + 1 < l1.length),
    List.getElem?_append_left h]

theorem readVector3_append_right (l1 l2 : List ℚ) (idx : Nat) :
    readVector3 (l1 ++ l2) (l1.length + idx) = readVector3 l2 idx := by
  unfold readVector3
  rw [List.getElem?_append_right (by omega : l1.length ≤ l1.length + idx),
    List.getElem?_append_right (by omega : l1.length ≤ l1.length + idx + 1),
    List.getElem?_append_right (by omega : l1.length ≤ l1.length + idx + 2)]
  have e0 : l1.length + idx - l1.length = idx := by omega
  have e1 : l1.length + idx + 1 - l1.length = idx + 1 := by omega
  have e2 : l1.length + idx + 2 - l1.length = idx + 2 := by omega
  rw [e0, e1, e2]

theorem StreamPositions_nil (P : Vector3 → Prop) : StreamPositions P [] 0 :=
  ⟨rfl, fun k hk => absurd hk (Nat.not_lt_zero k)⟩

theorem StreamPositions_append (P : Vector3 → Prop) (l1 l2 : List ℚ) (a b : Nat)
    (h1 : StreamPositions P l1 a) (h2 : StreamPositions P l2 b) :
    StreamPositions P (l1 ++ l2) (a + b) := by
  obtain ⟨hlen1, hp1⟩ := h1
  obtain ⟨hlen2, hp2⟩ := h2
  refine ⟨by rw [List.length_append, hlen1, hlen2]; omega, ?_⟩
  intro k hk
  unfold vertexPosition
  by_cases hka : k < a
  · obtain ⟨p, hp, hP⟩ := hp1 k hka
    refine ⟨p, ?_, hP⟩
    rw [readVector3_append_left l1 l2 (6 * k) (by omega)]
    exact hp
  · obtain ⟨p, hp, hP⟩ := hp2 (k - a) (by omega)
    refine ⟨p, ?_, hP⟩
    have e : 6 * k = l1.length + 6 * (k - a) := by omega
    rw [e, readVector3_append_right]
    exact hp

theorem StreamPositions_flatten (P : Vector3 → Prop) (faces : List Face)
    (h : ∀ f ∈ faces, StreamPositions P f.vertexData 6) :
    StreamPositions P (faces.map Face.vertexData).flatten (6 * faces.length) := by
  induction faces with
  | nil => exact StreamPositions_nil P
  | cons f fs ih =>
    rw [List.map_cons, List.flatten_cons, List.length_cons]
    have e : 6 * (fs.length + 1) = 6 + 6 * fs.length := by omega
    rw [e]
    exact StreamPositions_append P _ _ 6 _ (h f (List.mem_cons_self f fs))
      (ih (fun g hg => h g (List.mem_cons_of_mem f hg)))

theorem generated_face_of_mem (sqrtf : ℚ → ℚ) (faces : List Face) (l : List Nat)
    (hl : ∀ x ∈ l, x < 6)
    (hm : faces.map some = l.map (MeshGenerator.GenerateVertexesForFace sqrtf))
    (f : Face) (hf : f ∈ faces) :
    ∃ dir, dir < 6 ∧ MeshGenerator.GenerateVertexesForFace Rat.sqrt dir = some f := by
  have h1 : some f ∈ faces.map some := List.mem_map_of_mem some hf
  rw [hm] at h1
  obtain ⟨dir, hdir, hg⟩ := List.mem_map.mp h1
  refine ⟨dir, hl dir hdir, ?_⟩
  rw [← GenerateVertexesForFace_eq_of_lt_six sqrtf dir (hl dir hdir)]
  exact hg

set_option synthInstance.maxSize 1024 in
theorem generated_face_positions :
    ∀ dir, dir < 6 → ∃ face, MeshGenerator.GenerateVertexesForFace Rat.sqrt dir = some face ∧
      face.vertexData.length = 6 * 6 ∧
      ∀ k, k < 6 → ∃ p, vertexPosition face.vertexData k = some p ∧ IsCubeCorner p := by
  decide!

theorem generated_face_stream (f : Face) (dir : Nat) (hdir : dir < 6)
    (hf : MeshGenerator.GenerateVertexesForFace Rat.sqrt dir = some f) :
    StreamPositions IsCubeCorner f.vertexData 6 := by
  obtain ⟨face, hface, hlen, hp⟩ := generated_face_positions dir hdir
  rw [hf] at hface
  cases hface
  exact ⟨hlen, hp⟩

theorem sum_lengths_of_streams (P : Vector3 → Prop) (faces : List Face)
    (h : ∀ f ∈ faces, StreamPositions P f.vertexData 6) :
    (faces.map (fun face => face.vertexData.length)).sum = 36 * faces.length := by
  have := (StreamPositions_flatten P faces h).1
  rw [List.length_flatten, List.map_map] at this
  have e : (List.length ∘ Face.vertexData) = (fun face : Face => face.vertexData.length) := rfl
  rw [e] at this
  omega

theorem filter_range_six_length_le (p : Nat → Bool) : ((List.range 6).filter p).length ≤ 6 := by
  have := List.length_filter_le p (List.range 6)
  simpa using this

/-- The structure of every run of `CreateModel`, for any argument: it returns
the run built from the faces `GenerateVertexesForFace i` of the selected
positions `i`, in ascending order; there are `m <= 6` of them, the vertex
stream holds exactly `6 * m` records whose positions are cube corners, the index
stream is `0 .. 36 * m - 1` and the vertex count is `6 * m`. -/
theorem CreateModel_structure (sqrtf : ℚ → ℚ) (directions : Int) :
    ∃ faces, MeshGenerator.CreateModel sqrtf directions = some (CreateModelRun.ofFaces faces) ∧
      faces.map some = ((List.range 6).filter (directionSelected directions)).map
        (MeshGenerator.GenerateVertexesForFace sqrtf) ∧
      faces.length = ((List.range 6).filter (directionSelected directions)).length ∧
      faces.length ≤ 6 ∧
      StreamPositions IsCubeCorner (CreateModelRun.ofFaces faces).vertexData (6 * faces.length) ∧
      (CreateModelRun.ofFaces faces).indexData = List.range (36 * faces.length) ∧
      (CreateModelRun.ofFaces faces).numOfVerticies = 6 * faces.length := by
  obtain ⟨faces, hrun, hm⟩ := CreateModel_faces sqrtf directions
  have hlen : faces.length = ((List.range 6).filter (directionSelected directions)).length := by
    have := congrArg List.length hm
    simpa using this
  have hle : faces.length ≤ 6 := by
    rw [hlen]; exact filter_range_six_length_le _
  have hstream : ∀ f ∈ faces, StreamPositions IsCubeCorner f.vertexData 6 := by
    intro f hf
    obtain ⟨dir, hdir, hg⟩ := generated_face_of_mem sqrtf faces _
      (fun x hx => List.mem_range.mp (List.mem_filter.mp hx).1) hm f hf
    exact generated_face_stream f dir hdir hg
  have hidxlen : (Mesh.GetAllIndexData ⟨faces⟩).length = 36 * faces.length := by
    rw [GetAllIndexData_length]
    exact sum_lengths_of_streams IsCubeCorner faces hstream
  have hidx : Mesh.GetAllIndexData ⟨faces⟩ = List.range (36 * faces.length) := by
    rw [GetAllIndexData_eq_range_mod faces, hidxlen]
    exact map_mod_range_of_le _ (by omega)
  refine ⟨faces, hrun, hm, hlen, hle, ?_, hidx, ?_⟩
  · show StreamPositions IsCubeCorner (Mesh.GetAllVertexData ⟨faces⟩) (6 * faces.length)
    rw [GetAllVertexData_eq_flatten]
    exact StreamPositions_flatten IsCubeCorner faces hstream
  · show (Mesh.GetAllIndexData ⟨faces⟩).length / 6 = 6 * faces.length
    rw [hidxlen]
    omega

theorem ofFaces_mem_calls (faces : List Face) :
    EngineCall.vb_SetSize (CreateModelRun.ofFaces faces).numOfVerticies
        [⟨.TYPE_VECTOR3, .SEM_POSITION⟩, ⟨.TYPE_VECTOR3, .SEM_NORMAL⟩]
      ∈ (CreateModelRun.ofFaces faces).calls ∧
    EngineCall.vb_SetData (CreateModelRun.ofFaces faces).vertexData
      ∈ (CreateModelRun.ofFaces faces).calls ∧
    EngineCall.ib_SetSize (CreateModelRun.ofFaces faces).numOfVerticies false
      ∈ (CreateModelRun.ofFaces faces).calls ∧
    EngineCall.ib_SetData (CreateModelRun.ofFaces faces).indexData
      ∈ (CreateModelRun.ofFaces faces).calls ∧
    EngineCall.geom_SetDrawRange .TRIANGLE_LIST 0 (CreateModelRun.ofFaces faces).numOfVerticies
      ∈ (CreateModelRun.ofFaces faces).calls ∧
    EngineCall.model_SetBoundingBox ⟨-1/2, -1/2, -1/2⟩ ⟨1/2, 1/2, 1/2⟩
      ∈ (CreateModelRun.ofFaces faces).calls := by
  simp [CreateModelRun.ofFaces]

theorem selected_count_eq_popcount :
    ∀ d : Nat, d < 64 →
      ((List.range 6).filter (directionSelected ((d : Nat) : Int))).length = popcount d := by
  decide!

theorem Int_land_low_bits (m : Nat) (hm : m &&& 63 = m) (d : Int) :
    Int.land (m : Int) (Int.land d 63) = Int.land (m : Int) d := by
  cases d with
  | ofNat n =>
    show ((m &&& (n &&& 63) : Nat) : Int) = ((m &&& n : Nat) : Int)
    congr 1
    rw [Nat.land_comm n 63, ← Nat.land_assoc, hm]
  | negSucc n =>
    show ((m &&& Nat.ldiff 63 n : Nat) : Int) = ((Nat.ldiff m n : Nat) : Int)
    congr 1
    apply Nat.eq_of_testBit_eq
    intro i
    rw [Nat.testBit_land, Nat.testBit_ldiff, Nat.testBit_ldiff, ← Bool.and_assoc,
      ← Nat.testBit_land, hm]

theorem one_shiftLeft_land_63 : ∀ pos, pos < 6 → (1 <<< pos) &&& 63 = 1 <<< pos := by
  decide

theorem directionSelected_low_bits (d : Int) (pos : Nat) (h : pos < 6) :
    directionSelected (Int.land d 63) pos = directionSelected d pos := by
  unfold directionSelected
  rw [Int_land_low_bits (1 <<< pos) (one_shiftLeft_land_63 pos h) d]

theorem CreateModel_low_six_bits (sqrtf : ℚ → ℚ) (d : Int) :
    MeshGenerator.CreateModel sqrtf d = MeshGenerator.CreateModel sqrtf (Int.land d 63) := by
  rw [CreateModel_eq_ofFaces, CreateModel_eq_ofFaces]
  congr 1
  apply foldlM_option_congr
  intro pos hpos faces
  rw [selectFace_eq, selectFace_eq, directionSelected_low_bits d pos (List.mem_range.mp hpos)]

/-- The negative char `-91` (bit pattern `0b10100101`) selects the same faces as
its low six bits `0b100101 = 37`. -/
theorem CreateModel_negative_char_example (sqrtf : ℚ → ℚ) :
    Int.land (-91) 63 = 37 ∧
    MeshGenerator.CreateModel sqrtf (-91) = MeshGenerator.CreateModel sqrtf 37 := by
  have h : Int.land (-91) 63 = 37 := by decide!
  refine ⟨h, ?_⟩
  rw [CreateModel_low_six_bits sqrtf (-91), h]

theorem IndexBuffer_SetData_range (m : Nat) :
    IndexBuffer.SetData (6 * m) (List.range (36 * m)) = List.range (6 * m) := by
  unfold IndexBuffer.SetData
  rw [List.take_range, Nat.min_eq_left (by omega)]

/-! ## Claims -/

/-- C1: for every direction set `d` in `0 .. 63`, `CreateModel` returns, and the
vertex count `numOfVerticies` it computes equals `6 * popcount d`; that count is
the size passed to the vertex buffer, to the index buffer and to the draw
range. -/
theorem C1_vertex_count_eq_six_popcount (sqrtf : ℚ → ℚ) (d : Nat) (h : d < 64) :
    ∃ run, MeshGenerator.CreateModel sqrtf (d : Int) = some run ∧
      run.numOfVerticies = 6 * popcount d ∧
      EngineCall.vb_SetSize (6 * popcount d)
        [⟨.TYPE_VECTOR3, .SEM_POSITION⟩, ⟨.TYPE_VECTOR3, .SEM_NORMAL⟩] ∈ run.calls ∧
      EngineCall.ib_SetSize (6 * popcount d) false ∈ run.calls ∧
      EngineCall.geom_SetDrawRange .TRIANGLE_LIST 0 (6 * popcount d) ∈ run.calls := by
  obtain ⟨faces, hrun, _, hlen, _, _, _, hn⟩ := CreateModel_structure sqrtf (d : Int)
  have hn6 : (CreateModelRun.ofFaces faces).numOfVerticies = 6 * popcount d := by
    rw [hn, hlen, selected_count_eq_popcount d h]
  obtain ⟨hvb, _, hib, _, hdraw, _⟩ := ofFaces_mem_calls faces
  rw [hn6] at hvb hib hdraw
  exact ⟨_, hrun, hn6, hvb, hib, hdraw⟩

/-- C1 at the direction set `PositiveX | NegativeX` (36). -/
theorem C1_vertex_count_eq_six_popcount_witness :
    36 < 64 ∧ ∃ run, MeshGenerator.CreateModel Rat.sqrt ((36 : Nat) : Int) = some run ∧
      run.numOfVerticies = 6 * popcount 36 ∧
      EngineCall.vb_SetSize (6 * popcount 36)
        [⟨.TYPE_VECTOR3, .SEM_POSITION⟩, ⟨.TYPE_VECTOR3, .SEM_NORMAL⟩] ∈ run.calls ∧
      EngineCall.ib_SetSize (6 * popcount 36) false ∈ run.calls ∧
      EngineCall.geom_SetDrawRange .TRIANGLE_LIST 0 (6 * popcount 36) ∈ run.calls :=
  ⟨by decide, C1_vertex_count_eq_six_popcount Rat.sqrt 36 (by decide)⟩

/-- C2 (refuted as stated): on the mesh `CreateModel` builds for the single flag
`MESH_DIR_PositiveX` (one face of six vertex records), the index stream has 36
entries while the vertex stream's length divided by 6 is 6. -/
theorem C2_index_length_ne_vertex_length_div_six :
    ∃ run, MeshGenerator.CreateModel Rat.sqrt MESH_DIR_PositiveX = some run ∧
      (Mesh.GetAllIndexData ⟨run.faces⟩).length = 36 ∧
      (Mesh.GetAllVertexData ⟨run.faces⟩).length / 6 = 6 ∧
      (Mesh.GetAllIndexData ⟨run.faces⟩).length ≠ (Mesh.GetAllVertexData ⟨run.faces⟩).length / 6 := by
  decide!

/-- C2 (amended): for every sequence of faces, the index stream returned by
`GetAllIndexData` is exactly as long as the vertex stream returned by
`GetAllVertexData`: one index per float, not one per six-float vertex record. -/
theorem C2_index_length_eq_vertex_length (faces : List Face) :
    (Mesh.GetAllIndexData ⟨faces⟩).length = (Mesh.GetAllVertexData ⟨faces⟩).length := by
  rw [GetAllIndexData_length, GetAllVertexData_eq_flatten, List.length_flatten, List.map_map]
  rfl

set_option synthInstance.maxSize 1024 in
/-- C3: for every direction index `0 .. 5` and each of the two triangles of the
generated face, the normal stored on each of the triangle's three vertices has
squared length exactly 1 (so length exactly 1) and a strictly positive dot
product with the triangle's centroid: it points outward, for faces `3 .. 5` as
for faces `0 .. 2`. -/
theorem C3_normals_unit_and_outward (sqrtf : ℚ → ℚ) (dir : Nat) (h : dir < 6) :
    ∃ face, MeshGenerator.GenerateVertexesForFace sqrtf dir = some face ∧
      ∀ t, t < 2 → ∃ c, triangleCentroid face.vertexData t = some c ∧
        ∀ j, j < 3 → ∃ n, vertexNormal face.vertexData (3 * t + j) = some n ∧
          n.LengthSquared = 1 ∧ 0 < n.DotProduct c := by
  rw [GenerateVertexesForFace_eq_of_lt_six sqrtf dir h]
  revert dir
  decide!

/-- C3 at direction index 3 (a face built with the mirrored winding table). -/
theorem C3_normals_unit_and_outward_witness :
    3 < 6 ∧ ∃ face, MeshGenerator.GenerateVertexesForFace Rat.sqrt 3 = some face ∧
      ∀ t, t < 2 → ∃ c, triangleCentroid face.vertexData t = some c ∧
        ∀ j, j < 3 → ∃ n, vertexNormal face.vertexData (3 * t + j) = some n ∧
          n.LengthSquared = 1 ∧ 0 < n.DotProduct c :=
  ⟨by decide, C3_normals_unit_and_outward Rat.sqrt 3 (by decide)⟩

/-- C4 (the code at the failing inputs): `CreateModel (MESH_DIR_NegativeZ)`
emits six vertices that all lie in the plane `Z = +0.5` and carry the normal
`(0, 0, 1)`, and `CreateModel (MESH_DIR_PositiveZ)` emits six vertices that all
lie in the plane `Z = -0.5` and carry the normal `(0, 0, -1)`: each Z flag
builds the face opposite to the one it names. -/
theorem C4_z_flags_build_opposite_faces (sqrtf : ℚ → ℚ) :
    (∃ run, MeshGenerator.CreateModel sqrtf MESH_DIR_NegativeZ = some run ∧
      run.numOfVerticies = 6 ∧
      ∀ k, k < 6 → ∃ p, vertexPosition run.vertexData k = some p ∧ p.z_ = 1/2 ∧
        vertexNormal run.vertexData k = some ⟨0, 0, 1⟩) ∧
    (∃ run, MeshGenerator.CreateModel sqrtf MESH_DIR_PositiveZ = some run ∧
      run.numOfVerticies = 6 ∧
      ∀ k, k < 6 → ∃ p, vertexPosition run.vertexData k = some p ∧ p.z_ = -1/2 ∧
        vertexNormal run.vertexData k = some ⟨0, 0, -1⟩) := by
  rw [CreateModel_sqrtf_irrelevant sqrtf MESH_DIR_NegativeZ,
    CreateModel_sqrtf_irrelevant sqrtf MESH_DIR_PositiveZ]
  decide!

/-- The four X and Y flags do build the face they name: the six vertices lie on
the named side of the cube and carry the named outward normal. -/
theorem CreateModel_xy_flags_build_named_faces (sqrtf : ℚ → ℚ) :
    (∃ run, MeshGenerator.CreateModel sqrtf MESH_DIR_NegativeY = some run ∧
      run.numOfVerticies = 6 ∧
      ∀ k, k < 6 → ∃ p, vertexPosition run.vertexData k = some p ∧ p.y_ = -1/2 ∧
        vertexNormal run.vertexData k = some ⟨0, -1, 0⟩) ∧
    (∃ run, MeshGenerator.CreateModel sqrtf MESH_DIR_PositiveX = some run ∧
      run.numOfVerticies = 6 ∧
      ∀ k, k < 6 → ∃ p, vertexPosition run.vertexData k = some p ∧ p.x_ = 1/2 ∧
        vertexNormal run.vertexData k = some ⟨1, 0, 0⟩) ∧
    (∃ run, MeshGenerator.CreateModel sqrtf MESH_DIR_PositiveY = some run ∧
      run.numOfVerticies = 6 ∧
      ∀ k, k < 6 → ∃ p, vertexPosition run.vertexData k = some p ∧ p.y_ = 1/2 ∧
        vertexNormal run.vertexData k = some ⟨0, 1, 0⟩) ∧
    (∃ run, MeshGenerator.CreateModel sqrtf MESH_DIR_NegativeX = some run ∧
      run.numOfVerticies = 6 ∧
      ∀ k, k < 6 → ∃ p, vertexPosition run.vertexData k = some p ∧ p.x_ = -1/2 ∧
        vertexNormal run.vertexData k = some ⟨-1, 0, 0⟩) := by
  rw [CreateModel_sqrtf_irrelevant sqrtf MESH_DIR_NegativeY,
    CreateModel_sqrtf_irrelevant sqrtf MESH_DIR_PositiveX,
    CreateModel_sqrtf_irrelevant sqrtf MESH_DIR_PositiveY,
    CreateModel_sqrtf_irrelevant sqrtf MESH_DIR_NegativeX]
  decide!

/-- C5 (refuted as stated): for the empty direction set `CreateModel` does
request a vertex buffer of size 0 and an index buffer of size 0. -/
theorem C5_empty_set_requests_zero_sized_buffers :
    ∃ run, MeshGenerator.CreateModel Rat.sqrt MESH_DIR_None = some run ∧
      EngineCall.vb_SetSize 0
        [⟨.TYPE_VECTOR3, .SEM_POSITION⟩, ⟨.TYPE_VECTOR3, .SEM_NORMAL⟩] ∈ run.calls ∧
      EngineCall.ib_SetSize 0 false ∈ run.calls := by
  decide!

/-- C5 (amended): for the empty direction set `CreateModel` returns with zero
faces, zero vertices and zero indices, and it makes every engine call it makes
for any other set, unguarded: both buffers are sized to 0 and handed the empty
stream, and the draw range covers 0 indices. -/
theorem C5_empty_set_is_unguarded (sqrtf : ℚ → ℚ) :
    MeshGenerator.CreateModel sqrtf MESH_DIR_None =
      some ⟨[], [], [], 0,
        [ .vb_SetShadowed true,
          .vb_SetSize 0 [⟨.TYPE_VECTOR3, .SEM_POSITION⟩, ⟨.TYPE_VECTOR3, .SEM_NORMAL⟩],
          .vb_SetData [],
          .ib_SetShadowed true,
          .ib_SetSize 0 false,
          .ib_SetData [],
          .geom_SetVertexBuffer 0,
          .geom_SetIndexBuffer,
          .geom_SetDrawRange .TRIANGLE_LIST 0 0,
          .model_SetNumGeometries 1,
          .model_SetGeometry 0 0,
          .model_SetBoundingBox ⟨-1/2, -1/2, -1/2⟩ ⟨1/2, 1/2, 1/2⟩,
          .model_SetVertexBuffers [0] [0],
          .model_SetIndexBuffers ]⟩ := by
  rw [CreateModel_sqrtf_irrelevant sqrtf MESH_DIR_None]
  decide!

/-- C6: for every direction index `0 .. 5`, `GenerateVertexesForFace` returns a
face whose `vertexData` holds exactly 36 floats, whose `indexData` is exactly
`[0, 1, 2, 3, 4, 5]` and whose `count` is 6. -/
theorem C6_face_shape (sqrtf : ℚ → ℚ) (dir : Nat) (h : dir < 6) :
    ∃ face, MeshGenerator.GenerateVertexesForFace sqrtf dir = some face ∧
      face.vertexData.length = 36 ∧ face.indexData = [0, 1, 2, 3, 4, 5] ∧ face.count = 6 := by
  rw [GenerateVertexesForFace_eq_of_lt_six sqrtf dir h]
  revert dir
  decide!

/-- C6 at direction index 5. -/
theorem C6_face_shape_witness :
    5 < 6 ∧ ∃ face, MeshGenerator.GenerateVertexesForFace Rat.sqrt 5 = some face ∧
      face.vertexData.length = 36 ∧ face.indexData = [0, 1, 2, 3, 4, 5] ∧ face.count = 6 :=
  ⟨by decide, C6_face_shape Rat.sqrt 5 (by decide)⟩

/-- C7: for every direction index `dir` in `0 .. 5` and every `k` in `0 .. 5`,
the position of the `k`-th vertex of the generated face is the one the claim
describes (`specVertexPosition dir k`): the quad corner `quad[table[k]]` placed
in the XY plane at `z = ±0.5` (dir 0 / 3), in the XZ plane at `y = ∓0.5`
(dir 1 / 4), or in the YZ plane at `x = ±0.5` (dir 2 / 5). -/
theorem C7_vertex_positions (sqrtf : ℚ → ℚ) (dir k : Nat) (h : dir < 6) (hk : k < 6) :
    ∃ face, MeshGenerator.GenerateVertexesForFace sqrtf dir = some face ∧
      ∃ p, specVertexPosition dir k = some p ∧ vertexPosition face.vertexData k = some p := by
  rw [GenerateVertexesForFace_eq_of_lt_six sqrtf dir h]
  revert k
  revert dir
  decide!

/-- C7 at direction index 4, vertex 2. -/
theorem C7_vertex_positions_witness :
    4 < 6 ∧ 2 < 6 ∧ ∃ face, MeshGenerator.GenerateVertexesForFace Rat.sqrt 4 = some face ∧
      ∃ p, specVertexPosition 4 2 = some p ∧ vertexPosition face.vertexData 2 = some p :=
  ⟨by decide, by decide, C7_vertex_positions Rat.sqrt 4 2 (by decide) (by decide)⟩

/-- C8: for every direction set `d` in `0 .. 63` the vertex count is
`n = 6 * popcount d`; the index stream is `0, 1, ..., 6n - 1`; the index buffer
is sized to `n` 16-bit indices and then handed that stream, so the `n` indices
it holds (the first `n` entries of the stream) are exactly `0, 1, ..., n - 1`
in order; and the draw range is the triangle list over the `n` indices starting
at 0. The engine calls are exactly the listed ones, in this order. -/
theorem C8_index_buffer_is_range (sqrtf : ℚ → ℚ) (d : Nat) (h : d < 64) :
    ∃ run, MeshGenerator.CreateModel sqrtf (d : Int) = some run ∧
      run.numOfVerticies = 6 * popcount d ∧
      run.indexData = List.range (36 * popcount d) ∧
      IndexBuffer.SetData run.numOfVerticies run.indexData = List.range (6 * popcount d) ∧
      run.calls =
        [ .vb_SetShadowed true,
          .vb_SetSize (6 * popcount d)
            [⟨.TYPE_VECTOR3, .SEM_POSITION⟩, ⟨.TYPE_VECTOR3, .SEM_NORMAL⟩],
          .vb_SetData run.vertexData,
          .ib_SetShadowed true,
          .ib_SetSize (6 * popcount d) false,
          .ib_SetData run.indexData,
          .geom_SetVertexBuffer 0,
          .geom_SetIndexBuffer,
          .geom_SetDrawRange .TRIANGLE_LIST 0 (6 * popcount d),
          .model_SetNumGeometries 1,
          .model_SetGeometry 0 0,
          .model_SetBoundingBox ⟨-1/2, -1/2, -1/2⟩ ⟨1/2, 1/2, 1/2⟩,
          .model_SetVertexBuffers [0] [0],
          .model_SetIndexBuffers ] := by
  obtain ⟨faces, hrun, _, hlen, _, _, hidx, hn⟩ := CreateModel_structure sqrtf (d : Int)
  have hpop : faces.length = popcount d := by
    rw [hlen, selected_count_eq_popcount d h]
  have hn6 : (CreateModelRun.ofFaces faces).numOfVerticies = 6 * popcount d := by
    rw [hn, hpop]
  have hidx36 : (CreateModelRun.ofFaces faces).indexData = List.range (36 * popcount d) := by
    rw [hidx, hpop]
  refine ⟨_, hrun, hn6, hidx36, ?_, ?_⟩
  · rw [hidx36, hn6]
    exact IndexBuffer_SetData_range (popcount d)
  · rw [← hn6]
    rfl

/-- C8 at the direction set `PositiveX | NegativeX` (36): the vertex count is
12 and the index buffer holds the 12 indices `0 .. 11`. -/
theorem C8_index_buffer_is_range_witness :
    36 < 64 ∧
    (∃ run, MeshGenerator.CreateModel Rat.sqrt ((36 : Nat) : Int) = some run ∧
      run.numOfVerticies = 6 * popcount 36 ∧
      run.indexData = List.range (36 * popcount 36) ∧
      IndexBuffer.SetData run.numOfVerticies run.indexData = List.range (6 * popcount 36) ∧
      run.calls =
        [ .vb_SetShadowed true,
          .vb_SetSize (6 * popcount 36)
            [⟨.TYPE_VECTOR3, .SEM_POSITION⟩, ⟨.TYPE_VECTOR3, .SEM_NORMAL⟩],
          .vb_SetData run.vertexData,
          .ib_SetShadowed true,
          .ib_SetSize (6 * popcount 36) false,
          .ib_SetData run.indexData,
          .geom_SetVertexBuffer 0,
          .geom_SetIndexBuffer,
          .geom_SetDrawRange .TRIANGLE_LIST 0 (6 * popcount 36),
          .model_SetNumGeometries 1,
          .model_SetGeometry 0 0,
          .model_SetBoundingBox ⟨-1/2, -1/2, -1/2⟩ ⟨1/2, 1/2, 1/2⟩,
          .model_SetVertexBuffers [0] [0],
          .model_SetIndexBuffers ]) ∧
    6 * popcount 36 = 12 ∧
    List.range (6 * popcount 36) = [0, 1, 2, 3, 4, 5, 6, 7, 8, 9, 10, 11] :=
  ⟨by decide, C8_index_buffer_is_range Rat.sqrt 36 (by decide), by decide!, by decide!⟩

/-- The scenario of the specification: for `PositiveX | NegativeX` the vertex
count is 12 and the index buffer holds the 12 indices `0 .. 11`. -/
theorem CreateModel_PositiveX_NegativeX_indices (sqrtf : ℚ → ℚ) :
    ∃ run, MeshGenerator.CreateModel sqrtf (Int.lor MESH_DIR_PositiveX MESH_DIR_NegativeX)
        = some run ∧
      run.numOfVerticies = 12 ∧
      IndexBuffer.SetData run.numOfVerticies run.indexData
        = [0, 1, 2, 3, 4, 5, 6, 7, 8, 9, 10, 11] := by
  rw [CreateModel_sqrtf_irrelevant sqrtf]
  decide!

/-- C10: for every sequence of faces, `GetAllVertexData` returns the
concatenation of the faces' `vertexData` in input order; its length is the sum
of the faces' `vertexData` lengths, and the empty sequence gives the empty
stream. -/
theorem C10_vertex_stream_is_concatenation (faces : List Face) :
    Mesh.GetAllVertexData ⟨faces⟩ = (faces.map Face.vertexData).flatten ∧
    (Mesh.GetAllVertexData ⟨faces⟩).length = (faces.map (fun face => face.vertexData.length)).sum ∧
    Mesh.GetAllVertexData ⟨[]⟩ = [] := by
  refine ⟨GetAllVertexData_eq_flatten faces, ?_, rfl⟩
  rw [GetAllVertexData_eq_flatten, List.length_flatten, List.map_map]
  rfl

/-- C11: for every direction set (indeed for every value of the argument
`directions`), `CreateModel` returns, the bounding box given to the model is
`[-0.5,-0.5,-0.5] .. [0.5,0.5,0.5]`, and every vertex position of the vertex
stream lies inside it and on its boundary: each of its three coordinates is
exactly `-0.5` or `+0.5`. -/
theorem C11_positions_are_cube_corners (sqrtf : ℚ → ℚ) (directions : Int) :
    ∃ run, MeshGenerator.CreateModel sqrtf directions = some run ∧
      EngineCall.model_SetBoundingBox ⟨-1/2, -1/2, -1/2⟩ ⟨1/2, 1/2, 1/2⟩ ∈ run.calls ∧
      run.vertexData.length = 6 * run.numOfVerticies ∧
      ∀ k, k < run.numOfVerticies → ∃ p, vertexPosition run.vertexData k = some p ∧
        (p.x_ = -1/2 ∨ p.x_ = 1/2) ∧ (p.y_ = -1/2 ∨ p.y_ = 1/2) ∧ (p.z_ = -1/2 ∨ p.z_ = 1/2) ∧
        (-1/2 ≤ p.x_ ∧ p.x_ ≤ 1/2) ∧ (-1/2 ≤ p.y_ ∧ p.y_ ≤ 1/2) ∧
        (-1/2 ≤ p.z_ ∧ p.z_ ≤ 1/2) := by
  obtain ⟨faces, hrun, _, _, _, hstream, _, hn⟩ := CreateModel_structure sqrtf directions
  obtain ⟨_, _, _, _, _, hbox⟩ := ofFaces_mem_calls faces
  refine ⟨_, hrun, hbox, ?_, ?_⟩
  · rw [hn]; exact hstream.1
  · rw [hn]; exact hstream.2

/-- C12: for the full direction set (63), `CreateModel` emits 36 vertex
positions, and the bounding box it sets on the model is exactly their smallest
axis-aligned box: its corners are their componentwise minimum
`(-0.5,-0.5,-0.5)` and componentwise maximum `(0.5,0.5,0.5)`. -/
theorem C12_full_set_bounding_box_is_tight (sqrtf : ℚ → ℚ) :
    ∃ run, MeshGenerator.CreateModel sqrtf 63 = some run ∧
      run.numOfVerticies = 36 ∧
      (vertexPositions run.vertexData run.numOfVerticies).length = 36 ∧
      componentwiseMin (vertexPositions run.vertexData run.numOfVerticies)
        = some ⟨-1/2, -1/2, -1/2⟩ ∧
      componentwiseMax (vertexPositions run.vertexData run.numOfVerticies)
        = some ⟨1/2, 1/2, 1/2⟩ ∧
      EngineCall.model_SetBoundingBox ⟨-1/2, -1/2, -1/2⟩ ⟨1/2, 1/2, 1/2⟩ ∈ run.calls := by
  rw [CreateModel_sqrtf_irrelevant sqrtf]
  decide!

theorem CrossProduct_reversed_edges (p0 p1 p2 : Vector3) :
    (p0.sub p1).CrossProduct (p0.sub p2) = (p1.sub p0).CrossProduct (p2.sub p0) := by
  simp only [Vector3.sub, Vector3.CrossProduct, Vector3.mk.injEq]
  refine ⟨?_, ?_, ?_⟩ <;> ring

set_option synthInstance.maxSize 1024 in
theorem stored_normals_are_unit_cross_products :
    ∀ dir, dir < 6 → ∀ t, t < 2 →
      ∃ face, MeshGenerator.GenerateVertexesForFace Rat.sqrt dir = some face ∧
        ∃ p0, vertexPosition face.vertexData (3 * t) = some p0 ∧
        ∃ p1, vertexPosition face.vertexData (3 * t + 1) = some p1 ∧
        ∃ p2, vertexPosition face.vertexData (3 * t + 2) = some p2 ∧
          ((p1.sub p0).CrossProduct (p2.sub p0)).LengthSquared = 1 ∧
          (p1.sub p0).CrossProduct (p2.sub p0) ≠ ⟨0, 0, 0⟩ ∧
          ∀ j, j < 3 → vertexNormal face.vertexData (3 * t + j)
            = some ((p1.sub p0).CrossProduct (p2.sub p0)) := by
  decide!

/-- C13: for every direction index `0 .. 5` and each triangle `t` in `{0, 1}` of
the generated face, the three vertices `3t, 3t+1, 3t+2` all carry the same
normal, that normal is the one the specification defines (the normalized cross
product of `vertex1 - vertex0` and `vertex2 - vertex0`), and it is not the
placeholder `(0, 0, 0)`. -/
theorem C13_normals_refine_spec (sqrtf : ℚ → ℚ) (dir t : Nat) (h : dir < 6) (ht : t < 2) :
    ∃ face, MeshGenerator.GenerateVertexesForFace sqrtf dir = some face ∧
      ∃ p0, vertexPosition face.vertexData (3 * t) = some p0 ∧
      ∃ p1, vertexPosition face.vertexData (3 * t + 1) = some p1 ∧
      ∃ p2, vertexPosition face.vertexData (3 * t + 2) = some p2 ∧
        specTriangleNormal sqrtf p0 p1 p2 ≠ ⟨0, 0, 0⟩ ∧
        ∀ j, j < 3 → vertexNormal face.vertexData (3 * t + j)
          = some (specTriangleNormal sqrtf p0 p1 p2) := by
  rw [GenerateVertexesForFace_eq_of_lt_six sqrtf dir h]
  obtain ⟨face, hf, p0, h0, p1, h1, p2, h2, hu, hne, hn⟩ :=
    stored_normals_are_unit_cross_products dir h t ht
  refine ⟨face, hf, p0, h0, p1, h1, p2, h2, ?_, ?_⟩
  · unfold specTriangleNormal
    rw [Vector3.Normalized_of_lengthSquared_eq_one sqrtf _ hu]
    exact hne
  · intro j hj
    unfold specTriangleNormal
    rw [Vector3.Normalized_of_lengthSquared_eq_one sqrtf _ hu]
    exact hn j hj

/-- C13 at direction index 1, triangle 1. -/
theorem C13_normals_refine_spec_witness :
    1 < 6 ∧ 1 < 2 ∧
    ∃ face, MeshGenerator.GenerateVertexesForFace Rat.sqrt 1 = some face ∧
      ∃ p0, vertexPosition face.vertexData (3 * 1) = some p0 ∧
      ∃ p1, vertexPosition face.vertexData (3 * 1 + 1) = some p1 ∧
      ∃ p2, vertexPosition face.vertexData (3 * 1 + 2) = some p2 ∧
        specTriangleNormal Rat.sqrt p0 p1 p2 ≠ ⟨0, 0, 0⟩ ∧
        ∀ j, j < 3 → vertexNormal face.vertexData (3 * 1 + j)
          = some (specTriangleNormal Rat.sqrt p0 p1 p2) :=
  ⟨by decide, by decide, C13_normals_refine_spec Rat.sqrt 1 1 (by decide) (by decide)⟩

/-- C14: for every sequence of faces, the index stream has as many entries as
the faces' `vertexData` hold floats in total, `L`; when `L <= 65536`,
`GetAllIndexData` returns exactly `0, 1, ..., L - 1` (entry `k` is `k`, no
16-bit wrap-around), and any other sequence of faces whose `vertexData` lengths
are the same, whatever its `indexData` and `count` fields, gives the same index
stream. -/
theorem C14_index_stream_is_range (faces : List Face)
    (hL : (faces.map (fun face => face.vertexData.length)).sum ≤ 65536) :
    Mesh.GetAllIndexData ⟨faces⟩
      = List.range (faces.map (fun face => face.vertexData.length)).sum ∧
    (Mesh.GetAllIndexData ⟨faces⟩).length
      = (faces.map (fun face => face.vertexData.length)).sum ∧
    (∀ k, k < (faces.map (fun face => face.vertexData.length)).sum →
      (Mesh.GetAllIndexData ⟨faces⟩)[k]? = some k) ∧
    ∀ faces' : List Face,
      faces'.map (fun face => face.vertexData.length)
        = faces.map (fun face => face.vertexData.length) →
      Mesh.GetAllIndexData ⟨faces'⟩ = Mesh.GetAllIndexData ⟨faces⟩ := by
  have hlen := GetAllIndexData_length faces
  have hrange : Mesh.GetAllIndexData ⟨faces⟩
      = List.range (faces.map (fun face => face.vertexData.length)).sum := by
    conv_lhs => rw [GetAllIndexData_eq_range_mod faces, hlen]
    exact map_mod_range_of_le _ hL
  refine ⟨hrange, hlen, ?_, ?_⟩
  · intro k hk
    rw [hrange, List.getElem?_range hk]
  · intro faces' hlen'
    rw [GetAllIndexData_eq_range_mod faces', GetAllIndexData_eq_range_mod faces,
      GetAllIndexData_length, GetAllIndexData_length, hlen']

/-- C14 at two faces of 3 and 2 floats whose own `indexData` and `count` are
arbitrary: the index stream is `[0, 1, 2, 3, 4]`. -/
theorem C14_index_stream_is_range_witness :
    (([⟨[1, 2, 3], [7], 9⟩, ⟨[4, 5], [], 0⟩] : List Face).map (fun face => face.vertexData.length)).sum ≤ 65536 ∧
    (Mesh.GetAllIndexData ⟨([⟨[1, 2, 3], [7], 9⟩, ⟨[4, 5], [], 0⟩] : List Face)⟩
      = List.range (([⟨[1, 2, 3], [7], 9⟩, ⟨[4, 5], [], 0⟩] : List Face).map (fun face => face.vertexData.length)).sum ∧
    (Mesh.GetAllIndexData ⟨([⟨[1, 2, 3], [7], 9⟩, ⟨[4, 5], [], 0⟩] : List Face)⟩).length
      = (([⟨[1, 2, 3], [7], 9⟩, ⟨[4, 5], [], 0⟩] : List Face).map (fun face => face.vertexData.length)).sum ∧
    (∀ k, k < (([⟨[1, 2, 3], [7], 9⟩, ⟨[4, 5], [], 0⟩] : List Face).map (fun face => face.vertexData.length)).sum →
      (Mesh.GetAllIndexData ⟨([⟨[1, 2, 3], [7], 9⟩, ⟨[4, 5], [], 0⟩] : List Face)⟩)[k]? = some k) ∧
    ∀ faces' : List Face,
      faces'.map (fun face => face.vertexData.length)
        = ([⟨[1, 2, 3], [7], 9⟩, ⟨[4, 5], [], 0⟩] : List Face).map (fun face => face.vertexData.length) →
      Mesh.GetAllIndexData ⟨faces'⟩ = Mesh.GetAllIndexData ⟨([⟨[1, 2, 3], [7], 9⟩, ⟨[4, 5], [], 0⟩] : List Face)⟩) ∧
    List.range (([⟨[1, 2, 3], [7], 9⟩, ⟨[4, 5], [], 0⟩] : List Face).map (fun face => face.vertexData.length)).sum = [0, 1, 2, 3, 4] :=
  ⟨by decide, C14_index_stream_is_range [⟨[1, 2, 3], [7], 9⟩, ⟨[4, 5], [], 0⟩] (by decide),
    by decide⟩

set_option synthInstance.maxSize 1024 in
/-- C15: for every direction index `0 .. 5`, the six vertex positions of the
generated face are exactly 4 distinct points, the four corners of one side of
the unit cube; the two triangles (vertices `0 .. 2` and `3 .. 5`) share exactly
two positions, which are diagonally opposite corners of the quad (they differ
in two coordinates), and each triangle has exactly one position the other
lacks. -/
theorem C15_face_is_quad_of_two_triangles (sqrtf : ℚ → ℚ) (dir : Nat) (h : dir < 6) :
    ∃ face, MeshGenerator.GenerateVertexesForFace sqrtf dir = some face ∧
      (vertexPositions face.vertexData 6).length = 6 ∧
      (vertexPositions face.vertexData 6).dedup.length = 4 ∧
      (∃ side ∈ cubeSides,
        (∀ p ∈ vertexPositions face.vertexData 6, p ∈ side) ∧
        (∀ c ∈ side, c ∈ vertexPositions face.vertexData 6)) ∧
      (positionsShared ((vertexPositions face.vertexData 6).take 3)
        ((vertexPositions face.vertexData 6).drop 3)).length = 2 ∧
      (∀ p ∈ positionsShared ((vertexPositions face.vertexData 6).take 3)
          ((vertexPositions face.vertexData 6).drop 3),
        ∀ q ∈ positionsShared ((vertexPositions face.vertexData 6).take 3)
          ((vertexPositions face.vertexData 6).drop 3),
        p ≠ q → differingCoordinates p q = 2) ∧
      (positionsOnlyIn ((vertexPositions face.vertexData 6).take 3)
        ((vertexPositions face.vertexData 6).drop 3)).length = 1 ∧
      (positionsOnlyIn ((vertexPositions face.vertexData 6).drop 3)
        ((vertexPositions face.vertexData 6).take 3)).length = 1 := by
  rw [GenerateVertexesForFace_eq_of_lt_six sqrtf dir h]
  revert dir
  decide!

/-- C15 at direction index 2. -/
theorem C15_face_is_quad_of_two_triangles_witness :
    2 < 6 ∧
    ∃ face, MeshGenerator.GenerateVertexesForFace Rat.sqrt 2 = some face ∧
      (vertexPositions face.vertexData 6).length = 6 ∧
      (vertexPositions face.vertexData 6).dedup.length = 4 ∧
      (∃ side ∈ cubeSides,
        (∀ p ∈ vertexPositions face.vertexData 6, p ∈ side) ∧
        (∀ c ∈ side, c ∈ vertexPositions face.vertexData 6)) ∧
      (positionsShared ((vertexPositions face.vertexData 6).take 3)
        ((vertexPositions face.vertexData 6).drop 3)).length = 2 ∧
      (∀ p ∈ positionsShared ((vertexPositions face.vertexData 6).take 3)
          ((vertexPositions face.vertexData 6).drop 3),
        ∀ q ∈ positionsShared ((vertexPositions face.vertexData 6).take 3)
          ((vertexPositions face.vertexData 6).drop 3),
        p ≠ q → differingCoordinates p q = 2) ∧
      (positionsOnlyIn ((vertexPositions face.vertexData 6).take 3)
        ((vertexPositions face.vertexData 6).drop 3)).length = 1 ∧
      (positionsOnlyIn ((vertexPositions face.vertexData 6).drop 3)
        ((vertexPositions face.vertexData 6).take 3)).length = 1 :=
  ⟨by decide, C15_face_is_quad_of_two_triangles Rat.sqrt 2 (by decide)⟩

/-- C16: for every direction set (indeed for every value of the argument
`directions`) with vertex count `n`, both buffers are sized to `n`, the
vertex stream handed to the vertex buffer has exactly `6 * n` floats and the
index stream handed to the index buffer has at least `n` entries, so filling a
vertex buffer of `n` six-float records and an index buffer of `n` indices reads
only existing data; and every index the buffer then holds is less than `n`. -/
theorem C16_buffers_fit_and_indices_in_range (sqrtf : ℚ → ℚ) (directions : Int) :
    ∃ run, MeshGenerator.CreateModel sqrtf directions = some run ∧
      EngineCall.vb_SetSize run.numOfVerticies
        [⟨.TYPE_VECTOR3, .SEM_POSITION⟩, ⟨.TYPE_VECTOR3, .SEM_NORMAL⟩] ∈ run.calls ∧
      EngineCall.vb_SetData run.vertexData ∈ run.calls ∧
      EngineCall.ib_SetSize run.numOfVerticies false ∈ run.calls ∧
      EngineCall.ib_SetData run.indexData ∈ run.calls ∧
      run.vertexData.length = 6 * run.numOfVerticies ∧
      run.numOfVerticies ≤ run.indexData.length ∧
      (VertexBuffer.SetData run.numOfVerticies run.vertexData).length = 6 * run.numOfVerticies ∧
      (IndexBuffer.SetData run.numOfVerticies run.indexData).length = run.numOfVerticies ∧
      ∀ x ∈ IndexBuffer.SetData run.numOfVerticies run.indexData, x < run.numOfVerticies := by
  obtain ⟨faces, hrun, _, _, _, hstream, hidx, hn⟩ := CreateModel_structure sqrtf directions
  obtain ⟨hvb, hvbdata, hib, hibdata, _, _⟩ := ofFaces_mem_calls faces
  have hvlen : (CreateModelRun.ofFaces faces).vertexData.length
      = 6 * (CreateModelRun.ofFaces faces).numOfVerticies := by
    rw [hn]; exact hstream.1
  have hbuf : IndexBuffer.SetData (CreateModelRun.ofFaces faces).numOfVerticies
      (CreateModelRun.ofFaces faces).indexData
        = List.range (CreateModelRun.ofFaces faces).numOfVerticies := by
    rw [hidx, hn]
    exact IndexBuffer_SetData_range faces.length
  refine ⟨_, hrun, hvb, hvbdata, hib, hibdata, hvlen, ?_, ?_, ?_, ?_⟩
  · rw [hidx, hn, List.length_range]
    omega
  · unfold VertexBuffer.SetData
    rw [List.length_take, hvlen]
    omega
  · rw [hbuf, List.length_range]
  · intro x hx
    rw [hbuf] at hx
    exact List.mem_range.mp hx

/-- C17: `CreateModel` depends only on the low six bits of its argument: for
every value `d` the argument promotes to, in particular for every 8-bit value
of the `char`-backed `MeshDirection`, read as a signed char (`-128 .. 127`, so
also with bit 6 or bit 7 set) or as an unsigned one (`0 .. 255`), it computes
for `d` exactly what it computes for `d & 63`: the same faces, the same vertex
and index data, the same vertex count and the same engine calls. -/
theorem C17_only_low_six_bits_matter (sqrtf : ℚ → ℚ) (d : Int) :
    MeshGenerator.CreateModel sqrtf d = MeshGenerator.CreateModel sqrtf (Int.land d 63) ∧
    ∀ run, MeshGenerator.CreateModel sqrtf d = some run →
      ∃ run63, MeshGenerator.CreateModel sqrtf (Int.land d 63) = some run63 ∧
        run63.faces = run.faces ∧ run63.vertexData = run.vertexData ∧
        run63.indexData = run.indexData :=
  ⟨CreateModel_low_six_bits sqrtf d, fun run hrun =>
    ⟨run, (CreateModel_low_six_bits sqrtf d) ▸ hrun, rfl, rfl, rfl⟩⟩

end GamePrototyping
